import Mathlib

/-!
Verification of the dispatch/orchestration engine of the BeaconAI multi-agent
backend: the conversation state, the coordinator routing decision
(backend/app/agent/agents/coordinator.py), the graph driver and its
conditional edge function decide_next_agent (backend/app/agent/main.py), the
response synthesizer, and the specialist re-entry guards
(backend/app/agent/agents/client_profiler.py, ilp_insights.py).

Python dicts holding heterogeneous output records are modelled as a record
type with optional fields; `agent_outputs` and `shared_memory` are
association lists with cons-overwrite semantics (only key lookup is ever
observed by the code).  External effects (LLM calls, database tools) enter
the specialist embeddings as explicit parameters.
-/

namespace BeaconAI

/-- Lowercase a string; models the Python str.lower call on the ASCII
strings used by the routing tables. -/
def strLower (s : String) : String := String.mk (s.data.map Char.toLower)

/-- Whether the first list is a prefix of the second. -/
def listPrefix : List Char → List Char → Bool
  | [], _ => true
  | _ :: _, [] => false
  | p :: ps, c :: cs => p == c && listPrefix ps cs

/-- Whether the first list occurs as a contiguous sublist of the second. -/
def listInfix (pat : List Char) : List Char → Bool
  | [] => listPrefix pat []
  | c :: cs => listPrefix pat (c :: cs) || listInfix pat cs

/-- Substring containment; models the Python `in` operator on strings. -/
def strContains (s pat : String) : Bool := listInfix pat.data s.data

/-- First n characters of a string; models the Python slice used for
response deduplication keys. -/
def strTake (s : String) (n : Nat) : String := String.mk (s.data.take n)

/-- Models `any(word in query for word in words)`. -/
def anyWord (q : String) (words : List String) : Bool :=
  words.any (fun w => strContains q w)

/-- The apostrophe character, built numerically so the source file holds no
literal apostrophe. -/
def apos : String := String.singleton (Char.ofNat 39)

/-- The failure phrase (with an apostrophe) checked at coordinator.py line 147. -/
def couldntFind : String := "couldn" ++ apos ++ "t find"

/-- Default response used at coordinator.py line 121 when the relevant agent
has no response field. -/
def dontHaveMsg : String := "I don" ++ apos ++ "t have specific information about that."

/-- Generic fallback message, coordinator.py line 164. -/
def genericMsg : String :=
  "I" ++ apos ++ "ve analyzed your query but couldn" ++ apos ++
    "t find specific information to address it. Could you provide more details?"

/-- A conversation turn; the source distinguishes HumanMessage and AIMessage. -/
inductive Msg where
  | human (content : String)
  | ai (content : String)
  deriving DecidableEq, Repr

def Msg.content : Msg → String
  | .human c => c
  | .ai c => c

def Msg.isHuman : Msg → Bool
  | .human _ => true
  | .ai _ => false

/-- One record of `agent_outputs`.  The dynamic per-agent dicts of the source
are modelled as a single record with optional fields: coordinator records use
`next_agent`, `reasoning`, `clarification_needed`, `clarification_question`;
specialist records use `response` and `suggested_next_agent`.  A field the
source dict does not carry is `none` (respectively the default). -/
structure AgentOutput where
  response : Option String := none
  suggested_next_agent : Option String := none
  next_agent : Option String := none
  reasoning : String := ""
  clarification_needed : Bool := false
  clarification_question : Option String := none
  deriving DecidableEq, Repr

/-- The AgentState TypedDict of main.py lines 27-35. -/
structure AgentState where
  messages : List Msg
  client_id : String
  function_type : String
  agent_path : List String
  agent_outputs : List (String × AgentOutput)
  current_agent : String
  shared_memory : List (String × String)
  final_response : Option String
  deriving DecidableEq, Repr

/-- Content of the last human message: the value of
`human_messages[-1].content if human_messages else ""`, and also the value
left in `query` by the overwriting loop of find_most_relevant_agent. -/
def lastHumanContent (messages : List Msg) : String :=
  match (messages.filter Msg.isHuman).getLast? with
  | some m => m.content
  | none => ""

/-- coordinator.py lines 6-11. -/
def FUNCTION_TYPE_ROUTING : List (String × String) :=
  [("policy-explainer", "policy_explainer"),
   ("needs-assessment", "client_profiler"),
   ("product-recommendation", "product_suitability"),
   ("compliance-check", "compliance_check")]

/-- route_by_keywords, coordinator.py lines 207-230. -/
def route_by_keywords (query : String) : String :=
  let ql := strLower query
  if anyWord ql ["policy", "coverage", "insurance details", "term"] then
    "policy_explainer"
  else if anyWord ql ["needs", "profile", "assessment", "financial needs"] then
    "client_profiler"
  else if anyWord ql ["recommend", "product", "suitable", "suggestion"] then
    "product_suitability"
  else if anyWord ql ["compliance", "regulation", "rules", "requirements"] then
    "compliance_check"
  else if anyWord ql ["investment", "fund", "performance", "ilp", "growth"] then
    "ilp_insights"
  else if anyWord ql ["review", "upsell", "opportunity", "upgrade"] then
    "review_upsell"
  else
    "client_profiler"

/-- The non-coordinator entries of a path: the visited-agents set of
coordinator.py lines 34-37 and the filtered path of lines 128 and 178. -/
def nonCoord (path : List String) : List String :=
  path.filter (fun a => a ≠ "coordinator")

/-- The last non-coordinator agent in the path (reversed scan of
coordinator.py lines 40-44). -/
def last_specialist (path : List String) : Option String :=
  path.reverse.find? (fun a => a ≠ "coordinator")

/-- The suggested-next hint extraction of coordinator.py lines 64-69.  A
missing last agent, a missing output record, a missing key and a stored None
all come out as `none`; the empty-name guard mirrors the Python truthiness
test on `last_agent`. -/
def suggestedOf (st : AgentState) : Option String :=
  match last_specialist st.agent_path with
  | some la =>
    if la = "" then none
    else
      match st.agent_outputs.lookup la with
      | some o => o.suggested_next_agent
      | none => none
  | none => none

/-- Keyword re-routing with exhaustion check, coordinator.py lines 75-86. -/
def coordinatorKeywordFallback (current_query : String) (visited : List String) :
    String × String :=
  let a := route_by_keywords current_query
  if a ∉ visited then
    (a, "Re-routing based on query keywords: " ++ a)
  else
    ("END", "Ending conversation after trying all relevant agents")

/-- The routing decision (next_agent, reasoning) of coordinator_agent,
coordinator.py lines 29-86. -/
def coordinatorNext (st : AgentState) : String × String :=
  if 6 ≤ st.agent_path.length then
    ("END", "Ending conversation after sufficient agent interactions")
  else if st.agent_path.isEmpty then
    match FUNCTION_TYPE_ROUTING.lookup st.function_type with
    | some a => (a, "Initial routing based on function type: " ++ st.function_type)
    | none =>
      (route_by_keywords (lastHumanContent st.messages),
       "Initial routing based on query keywords: " ++
         route_by_keywords (lastHumanContent st.messages))
  else
    match suggestedOf st with
    | some s =>
      if s ≠ "" ∧ s ∉ nonCoord st.agent_path then
        (s, "Following suggestion from " ++ (last_specialist st.agent_path).getD "" ++
          " to route to " ++ s)
      else
        coordinatorKeywordFallback (lastHumanContent st.messages) (nonCoord st.agent_path)
    | none =>
      coordinatorKeywordFallback (lastHumanContent st.messages) (nonCoord st.agent_path)

/-- find_most_relevant_agent, coordinator.py lines 168-205. -/
def find_most_relevant_agent (st : AgentState) : Option String :=
  let ql := strLower (lastHumanContent st.messages)
  let path := nonCoord st.agent_path
  if path.isEmpty then none
  else if anyWord ql ["fund", "investment", "performance", "growth"] ∧ "ilp_insights" ∈ path then
    some "ilp_insights"
  else if anyWord ql ["upsell", "opportunity", "review"] ∧ "review_upsell" ∈ path then
    some "review_upsell"
  else if anyWord ql ["compliance", "regulation", "rules"] ∧ "compliance_check" ∈ path then
    some "compliance_check"
  else if anyWord ql ["recommend", "product", "suitable"] ∧ "product_suitability" ∈ path then
    some "product_suitability"
  else if anyWord ql ["policy", "insurance", "coverage"] ∧ "policy_explainer" ∈ path then
    some "policy_explainer"
  else
    path.getLast?

/-- First pass of the fallback concatenation, coordinator.py lines 133-154:
walk the filtered path, deduplicate on the first 30 characters of each
response, skip responses holding a failure phrase, join with blank lines.
Arguments after the path: accumulated response, used keys, included agents. -/
def fallbackPass (outputs : List (String × AgentOutput)) :
    List String → String → List String → List String → String
  | [], acc, _, _ => acc
  | a :: rest, acc, used, included =>
    if a ∈ included ∨ a = "coordinator" then
      fallbackPass outputs rest acc used included
    else
      match outputs.lookup a with
      | some o =>
        match o.response with
        | some r =>
          if strTake r 30 ∈ used then
            fallbackPass outputs rest acc used included
          else
            if strContains (strLower r) couldntFind ∨ strContains (strLower r) "not found" then
              fallbackPass outputs rest acc (strTake r 30 :: used) included
            else
              fallbackPass outputs rest
                (if acc ≠ "" then acc ++ "\n\n" ++ r else r)
                (strTake r 30 :: used) (a :: included)
        | none => fallbackPass outputs rest acc used included
      | none => fallbackPass outputs rest acc used included

/-- The concatenation fallback with last-resort and generic message,
coordinator.py lines 123-166. -/
def fallbackSynthesis (st : AgentState) (agent_outputs : List (String × AgentOutput)) :
    String :=
  let path := nonCoord st.agent_path
  let fr := fallbackPass agent_outputs path "" [] []
  let fr1 :=
    if fr = "" ∧ ¬ path.isEmpty then
      match path.getLast? with
      | some la =>
        match agent_outputs.lookup la with
        | some o =>
          match o.response with
          | some r => r
          | none => fr
        | none => fr
      | none => fr
    else fr
  if fr1 = "" then genericMsg else fr1

/-- generate_final_response, coordinator.py lines 112-166. -/
def generate_final_response (st : AgentState) (agent_outputs : List (String × AgentOutput)) :
    String :=
  match find_most_relevant_agent st with
  | some a =>
    match agent_outputs.lookup a with
    | some o => o.response.getD dontHaveMsg
    | none => fallbackSynthesis st agent_outputs
  | none => fallbackSynthesis st agent_outputs

/-- The decision record written at coordinator.py lines 92-97. -/
def coordinatorRecord (st : AgentState) : AgentOutput :=
  { next_agent := some (coordinatorNext st).1
    reasoning := (coordinatorNext st).2
    clarification_needed := false
    clarification_question := none }

/-- The unconditional bookkeeping of coordinator_agent, lines 88-102:
append to the path, overwrite the coordinator output slot, set
current_agent. -/
def coordinatorBase (st : AgentState) : AgentState :=
  { st with
    agent_path := st.agent_path ++ ["coordinator"]
    agent_outputs := ("coordinator", coordinatorRecord st) :: st.agent_outputs
    current_agent := "coordinator" }

/-- coordinator_agent, coordinator.py lines 13-110. -/
def coordinator_agent (st : AgentState) : AgentState :=
  if (coordinatorNext st).1 = "END" then
    { coordinatorBase st with
      final_response :=
        some (generate_final_response (coordinatorBase st) (coordinatorBase st).agent_outputs) }
  else
    coordinatorBase st

/-- The six valid specialist names of main.py lines 52-55. -/
def valid_specialists : List String :=
  ["client_profiler", "policy_explainer", "product_suitability",
   "compliance_check", "ilp_insights", "review_upsell"]

/-- decide_next_agent, main.py lines 45-63; `none` stands for the END
sentinel of the graph library.  (The Python would raise on a state whose
`agent_outputs` lacks the coordinator key entirely; the driver only calls
this right after coordinator_agent, which always writes that key.) -/
def decide_next_agent (st : AgentState) : Option String :=
  if st.current_agent = "coordinator" then
    match (st.agent_outputs.lookup "coordinator").bind AgentOutput.next_agent with
    | some n =>
      if n = "END" then none
      else if n ∈ valid_specialists then some n
      else none
    | none => none
  else
    some "coordinator"

/-- The StateGraph execution loop of main.py lines 66-98 and 154: entry point
coordinator, conditional edge decide_next_agent, every specialist wired back
to the coordinator.  `fuel` models the recursion limit; running out of fuel
is the fatal GraphRecursionError raised by the graph library. -/
def runGraph (registry : String → AgentState → AgentState) :
    Nat → AgentState → Except String AgentState
  | 0, _ => .error "GraphRecursionError"
  | fuel + 1, st =>
    let st1 := coordinator_agent st
    match decide_next_agent st1 with
    | none => .ok st1
    | some next => runGraph registry fuel (registry next st1)

/-- client_profiler suggested-next computation, client_profiler.py
lines 196-201. -/
def client_profiler_suggested (q : String) : Option String :=
  let ql := strLower q
  if strContains ql "products" ∨ strContains ql "recommend" then
    some "product_suitability"
  else if strContains ql "policy" ∨ strContains ql "coverage" then
    some "policy_explainer"
  else
    none

/-- client_profiler_agent, client_profiler.py lines 77-261.  The LLM
response text and the structured needs assessment computed from external
tool data enter as the parameters `response_text` and `needs`; the re-entry
guard and all state mutation follow the source. -/
def client_profiler_agent (response_text needs : String) (st : AgentState) : AgentState :=
  if (st.agent_outputs.lookup "client_profiler").isSome then st
  else
    { st with
      messages := st.messages ++ [Msg.ai response_text]
      agent_path := st.agent_path ++ ["client_profiler"]
      agent_outputs :=
        ("client_profiler",
          { response := some response_text
            suggested_next_agent :=
              client_profiler_suggested (lastHumanContent st.messages) }) :: st.agent_outputs
      current_agent := "client_profiler"
      shared_memory := ("client_needs", needs) :: st.shared_memory }

/-- ilp_insights suggested-next computation, ilp_insights.py lines 238-243. -/
def ilp_insights_suggested (q : String) : Option String :=
  let ql := strLower q
  if strContains ql "compliance" ∨ strContains ql "regulations" then
    some "compliance_check"
  else if strContains ql "recommend" ∨ strContains ql "suitable" then
    some "product_suitability"
  else
    none

/-- ilp_insights_agent, ilp_insights.py lines 83-340, with the LLM response
text and the fund-performance summary from external tools as parameters. -/
def ilp_insights_agent (response_text fund_perf : String) (st : AgentState) : AgentState :=
  if (st.agent_outputs.lookup "ilp_insights").isSome then st
  else
    { st with
      messages := st.messages ++ [Msg.ai response_text]
      agent_path := st.agent_path ++ ["ilp_insights"]
      agent_outputs :=
        ("ilp_insights",
          { response := some response_text
            suggested_next_agent :=
              ilp_insights_suggested (lastHumanContent st.messages) }) :: st.agent_outputs
      current_agent := "ilp_insights"
      shared_memory := ("fund_performance", fund_perf) :: st.shared_memory }

/-- Generic first-match-wins classifier over an ordered keyword table, as the
spec describes the keyword classifier (spec 4.1). -/
def specFirstMatch (q : String) : List (List String × String) → String → String
  | [], dflt => dflt
  | (kws, agent) :: rest, dflt =>
    if anyWord q kws then agent else specFirstMatch q rest dflt

/-- The keyword table exactly as the claim states it, specialist names as in
the code, hyphenated keyword phrases read as the spaced phrases the code
uses. -/
def claimedKeywordTable : List (List String × String) :=
  [(["policy", "coverage", "insurance details", "term"], "policy_explainer"),
   (["needs", "profile", "assessment", "financial needs"], "client_profiler"),
   (["recommend", "product", "suitable", "suggestion"], "product_suitability"),
   (["compliance", "regulation", "rules", "requirements"], "compliance_check"),
   (["investment", "fund", "performance", "growth"], "ilp_insights"),
   (["review", "upsell", "opportunity", "upgrade"], "review_upsell")]

/-- The table the source actually uses: identical to the claimed one except
that the investment row also contains the keyword ilp. -/
def actualKeywordTable : List (List String × String) :=
  [(["policy", "coverage", "insurance details", "term"], "policy_explainer"),
   (["needs", "profile", "assessment", "financial needs"], "client_profiler"),
   (["recommend", "product", "suitable", "suggestion"], "product_suitability"),
   (["compliance", "regulation", "rules", "requirements"], "compliance_check"),
   (["investment", "fund", "performance", "ilp", "growth"], "ilp_insights"),
   (["review", "upsell", "opportunity", "upgrade"], "review_upsell")]

/-- The classifier of spec 4.1 over a given table, default needs-profiler
(client_profiler in code naming). -/
def specKeywordRoute (table : List (List String × String)) (q : String) : String :=
  specFirstMatch (strLower q) table "client_profiler"

/-- A fresh initial state as handle_agent_request builds it (main.py
lines 136-148), with the client object and conversation history of
shared_memory elided to the empty map. -/
def initState (query fty : String) : AgentState :=
  { messages := [Msg.human query]
    client_id := "client-1"
    function_type := fty
    agent_path := []
    agent_outputs := []
    current_agent := "coordinator"
    shared_memory := []
    final_response := none }

/-- A minimal specialist obeying the spec 6 collaborator contract, used to
instantiate run-level theorems on concrete runs. -/
def mockSpecialist (name : String) (st : AgentState) : AgentState :=
  if (st.agent_outputs.lookup name).isSome then st
  else
    { st with
      agent_path := st.agent_path ++ [name]
      agent_outputs := (name, { response := some ("reply from " ++ name) }) :: st.agent_outputs
      current_agent := name }

/-- A contract-abiding specialist whose output carries a malformed
suggested-next hint. -/
def buggySpecialist (name : String) (st : AgentState) : AgentState :=
  if (st.agent_outputs.lookup name).isSome then st
  else
    { st with
      agent_path := st.agent_path ++ [name]
      agent_outputs :=
        (name, { response := some "analysis", suggested_next_agent := some "garbage_agent" })
          :: st.agent_outputs
      current_agent := name }

/-- The fragment of the spec 6 specialist contract used by the run-level
theorems: re-entry no-op, path extension by exactly the own name, and no
modification of final_response. -/
structure SpecStep (name : String) (f : AgentState → AgentState) : Prop where
  noop : ∀ st o, st.agent_outputs.lookup name = some o → f st = st
  path : ∀ st, st.agent_outputs.lookup name = none → (f st).agent_path = st.agent_path ++ [name]
  final : ∀ st, (f st).final_response = st.final_response

/-- A registry whose six specialists all satisfy the contract fragment. -/
def RegistryOk (registry : String → AgentState → AgentState) : Prop :=
  ∀ n, n ∈ valid_specialists → SpecStep n (registry n)

/-- State with five path entries and a live unvisited hint. -/
def hardCapState : AgentState :=
  { messages := [Msg.human "Tell me about compliance rules"]
    client_id := "client-1"
    function_type := "needs-assessment"
    agent_path := ["coordinator", "client_profiler", "coordinator", "policy_explainer", "coordinator"]
    agent_outputs :=
      [("policy_explainer",
        { response := some "Policy info", suggested_next_agent := some "ilp_insights" })]
    current_agent := "coordinator"
    shared_memory := []
    final_response := none }

/-- State with six path entries, for the amended hard-cap witness. -/
def sixPathState : AgentState :=
  { hardCapState with
    agent_path :=
      ["coordinator", "client_profiler", "coordinator", "policy_explainer", "coordinator",
       "ilp_insights"] }

/-- State whose path holds only a coordinator entry: no specialist has run
yet, but the path is not empty. -/
def coordinatorOnlyState : AgentState :=
  { messages := [Msg.human "Explain the policy coverage"]
    client_id := "c"
    function_type := "needs-assessment"
    agent_path := ["coordinator"]
    agent_outputs := [("coordinator", { next_agent := some "client_profiler", reasoning := "r" })]
    current_agent := "coordinator"
    shared_memory := []
    final_response := none }

/-- Two specialists whose responses share no relevance keyword with the
query; the second response holds the phrase could-not-find. -/
def couldNotFindState : AgentState :=
  { messages := [Msg.human "hello there"]
    client_id := "c"
    function_type := "x"
    agent_path := ["coordinator", "client_profiler", "coordinator", "review_upsell", "coordinator"]
    agent_outputs :=
      [("client_profiler", { response := some "Here is the profile summary." }),
       ("review_upsell", { response := some "I could not find any data." })]
    current_agent := "coordinator"
    shared_memory := []
    final_response := none }

/-- Family of states reaching the concatenation fallback: the query selects
ilp_insights as most relevant, which sits in the path without an output
record, so the synthesizer walks the path and concatenates. -/
def fallbackScenarioState (r1 r2 : String) : AgentState :=
  { messages := [Msg.human "tell me about the fund"]
    client_id := "c"
    function_type := "x"
    agent_path :=
      ["coordinator", "client_profiler", "coordinator", "review_upsell", "coordinator",
       "ilp_insights"]
    agent_outputs :=
      [("client_profiler", { response := some r1 }),
       ("review_upsell", { response := some r2 })]
    current_agent := "coordinator"
    shared_memory := []
    final_response := none }

/-- A second-response string holding the real failure phrase. -/
def wr2 : String := "Sorry, I couldn" ++ apos ++ "t find the review data."

/-- Path [policy_explainer, ilp_insights] with a fund-performance query. -/
def priorityState : AgentState :=
  { messages := [Msg.human "How is the fund performance?"]
    client_id := "c"
    function_type := "x"
    agent_path := ["coordinator", "policy_explainer", "coordinator", "ilp_insights"]
    agent_outputs :=
      [("policy_explainer", { response := some "Policy details." }),
       ("ilp_insights", { response := some "The Global Growth Fund gained 8 percent." })]
    current_agent := "coordinator"
    shared_memory := []
    final_response := none }

/-- State whose last specialist suggested an unknown specialist name. -/
def malformedHintState : AgentState :=
  { messages := [Msg.human "hello"]
    client_id := "c"
    function_type := "x"
    agent_path := ["coordinator", "client_profiler"]
    agent_outputs :=
      [("client_profiler", { response := some "ok", suggested_next_agent := some "garbage_agent" })]
    current_agent := "client_profiler"
    shared_memory := []
    final_response := none }

/-- State whose last specialist suggests an already-visited specialist while
the keyword route is also already visited. -/
def hintVisitedState : AgentState :=
  { messages := [Msg.human "what are the needs"]
    client_id := "c"
    function_type := "x"
    agent_path := ["coordinator", "client_profiler", "coordinator"]
    agent_outputs :=
      [("client_profiler",
        { response := some "p", suggested_next_agent := some "client_profiler" })]
    current_agent := "coordinator"
    shared_memory := []
    final_response := none }

/-- State in which both guarded specialists already own an output record. -/
def reentryState : AgentState :=
  { messages := [Msg.human "profile please"]
    client_id := "c"
    function_type := "x"
    agent_path := ["coordinator", "client_profiler", "coordinator", "ilp_insights"]
    agent_outputs :=
      [("client_profiler", { response := some "p" }), ("ilp_insights", { response := some "i" })]
    current_agent := "ilp_insights"
    shared_memory := []
    final_response := none }

/-- Mid-conversation state used to exercise the coordinator frame effect. -/
def frameState : AgentState :=
  { messages := [Msg.human "frame query"]
    client_id := "cid"
    function_type := "ft"
    agent_path := ["coordinator", "policy_explainer"]
    agent_outputs := [("policy_explainer", { response := some "pe" })]
    current_agent := "policy_explainer"
    shared_memory := [("k", "v")]
    final_response := none }

/-! ## Supporting lemmas -/

theorem lookup_cons_self {β : Type} (k : String) (v : β) (l : List (String × β)) :
    List.lookup k ((k, v) :: l) = some v := by
  simp [List.lookup]

theorem lookup_cons_ne {β : Type} {k c : String} (v : β) (l : List (String × β)) (h : k ≠ c) :
    List.lookup k ((c, v) :: l) = List.lookup k l := by
  have hb : (k == c) = false := beq_eq_false_iff_ne.mpr h
  simp [List.lookup, hb]

theorem coordinator_agent_messages (st : AgentState) :
    (coordinator_agent st).messages = st.messages := by
  unfold coordinator_agent; split <;> rfl

theorem coordinator_agent_client_id (st : AgentState) :
    (coordinator_agent st).client_id = st.client_id := by
  unfold coordinator_agent; split <;> rfl

theorem coordinator_agent_function_type (st : AgentState) :
    (coordinator_agent st).function_type = st.function_type := by
  unfold coordinator_agent; split <;> rfl

theorem coordinator_agent_shared_memory (st : AgentState) :
    (coordinator_agent st).shared_memory = st.shared_memory := by
  unfold coordinator_agent; split <;> rfl

theorem coordinator_agent_current (st : AgentState) :
    (coordinator_agent st).current_agent = "coordinator" := by
  unfold coordinator_agent; split <;> rfl

theorem coordinator_agent_path (st : AgentState) :
    (coordinator_agent st).agent_path = st.agent_path ++ ["coordinator"] := by
  unfold coordinator_agent; split <;> rfl

theorem coordinator_agent_outputs (st : AgentState) :
    (coordinator_agent st).agent_outputs =
      ("coordinator", coordinatorRecord st) :: st.agent_outputs := by
  unfold coordinator_agent; split <;> rfl

theorem coordinator_agent_final_of_ne (st : AgentState)
    (h : (coordinatorNext st).1 ≠ "END") :
    (coordinator_agent st).final_response = st.final_response := by
  unfold coordinator_agent
  rw [if_neg h]
  rfl

theorem coordinator_agent_final_of_end (st : AgentState)
    (h : (coordinatorNext st).1 = "END") :
    (coordinator_agent st).final_response.isSome = true := by
  unfold coordinator_agent
  rw [if_pos h]
  rfl

theorem coordinator_lookup_next (st : AgentState) :
    ((coordinator_agent st).agent_outputs.lookup "coordinator").bind AgentOutput.next_agent
      = some (coordinatorNext st).1 := by
  rw [coordinator_agent_outputs, lookup_cons_self]
  rfl

theorem decide_after_coordinator (st : AgentState) :
    decide_next_agent (coordinator_agent st) =
      if (coordinatorNext st).1 = "END" then none
      else if (coordinatorNext st).1 ∈ valid_specialists then some (coordinatorNext st).1
      else none := by
  unfold decide_next_agent
  rw [coordinator_agent_current, coordinator_agent_outputs, if_pos rfl, lookup_cons_self]
  rfl

theorem nonCoord_append (l1 l2 : List String) :
    nonCoord (l1 ++ l2) = nonCoord l1 ++ nonCoord l2 := by
  simp [nonCoord]

theorem nonCoord_append_coordinator (l : List String) :
    nonCoord (l ++ ["coordinator"]) = nonCoord l := by
  rw [nonCoord_append]
  simp [nonCoord]

theorem nonCoord_append_of_ne (l : List String) (n : String) (h : n ≠ "coordinator") :
    nonCoord (l ++ [n]) = nonCoord l ++ [n] := by
  rw [nonCoord_append]
  simp [nonCoord, h]

theorem valid_ne_coordinator {n : String} (h : n ∈ valid_specialists) : n ≠ "coordinator" := by
  intro hc
  subst hc
  exact absurd h (by decide)

/-- In every branch that routes to a specialist, the routing decision names a
specialist outside the visited set. -/
theorem coordinatorNext_unvisited_aux (st : AgentState)
    (h : (coordinatorNext st).1 ≠ "END") :
    (coordinatorNext st).1 ∉ nonCoord st.agent_path := by
  unfold coordinatorNext coordinatorKeywordFallback at h ⊢
  by_cases h6 : 6 ≤ st.agent_path.length
  · rw [if_pos h6] at h
    exact absurd rfl h
  · rw [if_neg h6] at h ⊢
    by_cases hemp : st.agent_path.isEmpty = true
    · have hnil : st.agent_path = [] := by simpa using hemp
      simp [hnil, nonCoord]
    · rw [if_neg hemp] at h ⊢
      cases hs : suggestedOf st with
      | some s =>
        simp only [hs] at h ⊢
        by_cases hc : s ≠ "" ∧ s ∉ nonCoord st.agent_path
        · rw [if_pos hc] at h ⊢
          exact hc.2
        · rw [if_neg hc] at h ⊢
          by_cases hk : route_by_keywords (lastHumanContent st.messages) ∉ nonCoord st.agent_path
          · rw [if_pos hk] at h ⊢
            exact hk
          · rw [if_neg hk] at h
            exact absurd rfl h
      | none =>
        simp only [hs] at h ⊢
        by_cases hk : route_by_keywords (lastHumanContent st.messages) ∉ nonCoord st.agent_path
        · rw [if_pos hk] at h ⊢
          exact hk
        · rw [if_neg hk] at h
          exact absurd rfl h

/-- Mid-conversation with a visited-or-empty hint and a visited keyword
route, the decision is END. -/
theorem coordinator_exhausted_end_aux (st : AgentState)
    (h6 : ¬ 6 ≤ st.agent_path.length) (hne : st.agent_path ≠ [])
    (hhint : ∀ s, suggestedOf st = some s → s = "" ∨ s ∈ nonCoord st.agent_path)
    (hkw : route_by_keywords (lastHumanContent st.messages) ∈ nonCoord st.agent_path) :
    (coordinatorNext st).1 = "END" := by
  unfold coordinatorNext coordinatorKeywordFallback
  rw [if_neg h6]
  have hemp : ¬ st.agent_path.isEmpty = true := by simpa using hne
  rw [if_neg hemp]
  cases hs : suggestedOf st with
  | some s =>
    simp only [hs]
    have hc : ¬ (s ≠ "" ∧ s ∉ nonCoord st.agent_path) := by
      rcases hhint s hs with h1 | h1
      · intro hcontra; exact hcontra.1 h1
      · intro hcontra; exact hcontra.2 h1
    rw [if_neg hc, if_neg (not_not_intro hkw)]
  | none =>
    simp only [hs]
    rw [if_neg (not_not_intro hkw)]

theorem mockSpecialist_spec (name : String) : SpecStep name (mockSpecialist name) := by
  constructor
  · intro st o h
    simp [mockSpecialist, h]
  · intro st h
    simp [mockSpecialist, h]
  · intro st
    unfold mockSpecialist
    split <;> rfl

theorem mockRegistry_ok : RegistryOk mockSpecialist := fun n _ => mockSpecialist_spec n

theorem buggySpecialist_spec (name : String) : SpecStep name (buggySpecialist name) := by
  constructor
  · intro st o h
    simp [buggySpecialist, h]
  · intro st h
    simp [buggySpecialist, h]
  · intro st
    unfold buggySpecialist
    split <;> rfl

theorem buggyRegistry_ok : RegistryOk buggySpecialist := fun n _ => buggySpecialist_spec n

/-- Over any contract-abiding registry, final_response at a terminal state is
set exactly when the coordinator decided END; otherwise it is whatever the
initial state held. -/
theorem runGraph_final_aux (registry : String → AgentState → AgentState)
    (hreg : RegistryOk registry) :
    ∀ fuel st s, runGraph registry fuel st = Except.ok s →
      (((s.agent_outputs.lookup "coordinator").bind AgentOutput.next_agent = some "END" →
          s.final_response.isSome = true)
       ∧ ((s.agent_outputs.lookup "coordinator").bind AgentOutput.next_agent ≠ some "END" →
          s.final_response = st.final_response)) := by
  intro fuel
  induction fuel with
  | zero =>
    intro st s h
    simp [runGraph] at h
  | succ n ih =>
    intro st s h
    rw [runGraph] at h
    rw [decide_after_coordinator] at h
    by_cases hend : (coordinatorNext st).1 = "END"
    · rw [if_pos hend] at h
      simp only [] at h
      cases h
      constructor
      · intro _
        exact coordinator_agent_final_of_end st hend
      · intro hne
        exact absurd (by rw [coordinator_lookup_next, hend]) hne
    · rw [if_neg hend] at h
      by_cases hval : (coordinatorNext st).1 ∈ valid_specialists
      · rw [if_pos hval] at h
        simp only [] at h
        have h2 := ih _ _ h
        have hfin : (registry (coordinatorNext st).1 (coordinator_agent st)).final_response
            = st.final_response := by
          rw [(hreg _ hval).final, coordinator_agent_final_of_ne st hend]
        exact ⟨h2.1, fun hne => (h2.2 hne).trans hfin⟩
      · rw [if_neg hval] at h
        simp only [] at h
        cases h
        constructor
        · intro hEnd
          rw [coordinator_lookup_next] at hEnd
          exact absurd (Option.some.inj hEnd) hend
        · intro _
          exact coordinator_agent_final_of_ne st hend

/-- Over any contract-abiding registry, runs preserve distinctness of the
non-coordinator path entries. -/
theorem runGraph_nodup_aux (registry : String → AgentState → AgentState)
    (hreg : RegistryOk registry) :
    ∀ fuel st s, runGraph registry fuel st = Except.ok s →
      (nonCoord st.agent_path).Nodup → (nonCoord s.agent_path).Nodup := by
  intro fuel
  induction fuel with
  | zero =>
    intro st s h
    simp [runGraph] at h
  | succ n ih =>
    intro st s h hnd
    have hnd1 : (nonCoord (coordinator_agent st).agent_path).Nodup := by
      rw [coordinator_agent_path, nonCoord_append_coordinator]
      exact hnd
    rw [runGraph] at h
    rw [decide_after_coordinator] at h
    by_cases hend : (coordinatorNext st).1 = "END"
    · rw [if_pos hend] at h
      simp only [] at h
      cases h
      exact hnd1
    · rw [if_neg hend] at h
      by_cases hval : (coordinatorNext st).1 ∈ valid_specialists
      · rw [if_pos hval] at h
        simp only [] at h
        apply ih _ _ h
        have hnv : (coordinatorNext st).1 ∉ nonCoord (coordinator_agent st).agent_path := by
          rw [coordinator_agent_path, nonCoord_append_coordinator]
          exact coordinatorNext_unvisited_aux st hend
        cases hlo : (coordinator_agent st).agent_outputs.lookup (coordinatorNext st).1 with
        | some o =>
          rw [(hreg _ hval).noop _ _ hlo]
          exact hnd1
        | none =>
          have hp := (hreg _ hval).path _ hlo
          rw [hp, nonCoord_append_of_ne _ _ (valid_ne_coordinator hval)]
          rw [List.nodup_append]
          refine ⟨hnd1, List.nodup_singleton _, ?_⟩
          intro a ha hb
          rw [List.mem_singleton] at hb
          subst hb
          exact hnv ha
      · rw [if_neg hval] at h
        simp only [] at h
        cases h
        exact hnd1

/-! ## Claim theorems -/

/-- C1 counterexample: a ConversationState whose agent_path holds exactly 5
entries on which a single Routing Policy call does not decide TERMINATE; it
follows the live hint instead.  The source cap fires only at 6 entries. -/
theorem hard_cap_five_entries_counterexample :
    hardCapState.agent_path.length = 5 ∧
      (coordinatorNext hardCapState).1 = "ilp_insights" ∧
      (coordinatorNext hardCapState).1 ≠ "END" := by decide

/-- C1 (amended): once agent_path already holds at least 6 entries, a single
Routing Policy call decides TERMINATE unconditionally: both the decision and
the next_agent recorded by coordinator_agent are END, regardless of any
suggested-next hint, query keywords, or function_type. -/
theorem hard_cap_six_entries :
    ∀ st : AgentState, 6 ≤ st.agent_path.length →
      (coordinatorNext st).1 = "END" ∧
      ((coordinator_agent st).agent_outputs.lookup "coordinator").bind AgentOutput.next_agent
        = some "END" := by
  intro st h
  have hn : (coordinatorNext st).1 = "END" := by
    unfold coordinatorNext
    rw [if_pos h]
  exact ⟨hn, by rw [coordinator_lookup_next, hn]⟩

/-- C1 witness: the amended hard cap at a concrete 6-entry state. -/
theorem hard_cap_six_entries_witness :
    6 ≤ sixPathState.agent_path.length ∧ (coordinatorNext sixPathState).1 = "END" :=
  ⟨by decide, (hard_cap_six_entries sixPathState (by decide)).1⟩

/-- C2 counterexample: a run in which a specialist emits a malformed hint,
the coordinator adopts it, and decide_next_agent maps the invalid name to
END: the run reaches the terminal state (an ok result) with final_response
still null. -/
theorem terminal_null_response_counterexample :
    ∃ s, runGraph buggySpecialist 10 (initState "What are the needs?" "needs-assessment")
        = Except.ok s ∧ s.final_response = none :=
  ⟨_, rfl, rfl⟩

/-- C2 (amended): in every terminating run over a contract-abiding registry,
final_response is non-null whenever the final coordinator decision was END,
and is untouched (still the initial value) whenever the run reached Terminal
through the invalid-next_agent guard of decide_next_agent. -/
theorem final_response_iff_coordinator_end :
    ∀ registry : String → AgentState → AgentState, RegistryOk registry →
      ∀ fuel st s, runGraph registry fuel st = Except.ok s →
        (((s.agent_outputs.lookup "coordinator").bind AgentOutput.next_agent = some "END" →
            s.final_response.isSome = true)
         ∧ ((s.agent_outputs.lookup "coordinator").bind AgentOutput.next_agent ≠ some "END" →
            s.final_response = st.final_response)) :=
  fun registry hreg => runGraph_final_aux registry hreg

/-- C2 witness: a concrete normally-terminating run ends with a non-null
final_response. -/
theorem final_response_iff_coordinator_end_witness :
    ∃ s, runGraph mockSpecialist 20 (initState "hello" "") = Except.ok s ∧
      s.final_response.isSome = true :=
  ⟨_, rfl,
    (final_response_iff_coordinator_end mockSpecialist mockRegistry_ok 20
        (initState "hello" "") _ rfl).1 (by decide)⟩

/-- C3 counterexample: with the last specialist hinting the unknown name
garbage_agent, the Routing Policy adopts that very name as its decision
instead of falling through to keyword classification. -/
theorem malformed_hint_propagated_counterexample :
    (coordinatorNext malformedHintState).1 = "garbage_agent" ∧
      "garbage_agent" ∉ valid_specialists ∧
      (coordinatorNext malformedHintState).1
        ≠ route_by_keywords (lastHumanContent malformedHintState.messages) := by decide

/-- C3 (amended): the Routing Policy adopts any non-empty unvisited hint
verbatim, malformed or not; it is then decide_next_agent in the Step
Executor that maps a name outside the six valid specialists to END, so the
malformed name is never dispatched and causes no fatal error, but keyword
classification is not consulted either. -/
theorem malformed_hint_route_behavior :
    (∀ (st : AgentState) (s : String), ¬ 6 ≤ st.agent_path.length → st.agent_path ≠ [] →
        suggestedOf st = some s → s ≠ "" → s ∉ nonCoord st.agent_path →
        (coordinatorNext st).1 = s)
    ∧ (∀ (st : AgentState) (n : String), (coordinatorNext st).1 = n →
        n ∉ valid_specialists → n ≠ "END" →
        decide_next_agent (coordinator_agent st) = none) := by
  constructor
  · intro st s h6 hne hs hse hsv
    unfold coordinatorNext
    rw [if_neg h6, if_neg (show ¬ st.agent_path.isEmpty = true by simpa using hne)]
    simp only [hs]
    rw [if_pos ⟨hse, hsv⟩]
  · intro st n h hnv hnE
    rw [decide_after_coordinator, h, if_neg hnE, if_neg hnv]

/-- C3 witness: the amended behavior at the concrete malformed-hint state. -/
theorem malformed_hint_route_behavior_witness :
    (coordinatorNext malformedHintState).1 = "garbage_agent" ∧
      decide_next_agent (coordinator_agent malformedHintState) = none :=
  ⟨malformed_hint_route_behavior.1 malformedHintState "garbage_agent" (by decide) (by decide)
      (by decide) (by decide) (by decide),
   malformed_hint_route_behavior.2 malformedHintState "garbage_agent" (by decide) (by decide)
      (by decide)⟩

/-- C4: a guarded specialist whose own name is already a key of
agent_outputs returns the state unchanged, for any value of the external
LLM and tool parameters. -/
theorem specialist_reentry_idempotent :
    (∀ (rt nd : String) (st : AgentState) (o : AgentOutput),
        st.agent_outputs.lookup "client_profiler" = some o →
        client_profiler_agent rt nd st = st)
    ∧ (∀ (rt fp : String) (st : AgentState) (o : AgentOutput),
        st.agent_outputs.lookup "ilp_insights" = some o →
        ilp_insights_agent rt fp st = st) := by
  constructor
  · intro rt nd st o h
    simp [client_profiler_agent, h]
  · intro rt fp st o h
    simp [ilp_insights_agent, h]

/-- C4 witness: both guards at a concrete state holding both keys. -/
theorem specialist_reentry_idempotent_witness :
    client_profiler_agent "r" "n" reentryState = reentryState ∧
      ilp_insights_agent "r" "f" reentryState = reentryState :=
  ⟨specialist_reentry_idempotent.1 "r" "n" reentryState { response := some "p" } (by decide),
   specialist_reentry_idempotent.2 "r" "f" reentryState { response := some "i" } (by decide)⟩

/-- C5: the Routing Policy never selects a visited specialist; with a
visited-or-empty hint and a visited keyword route it terminates; and over
any contract-abiding registry every terminating run preserves distinctness
of the non-coordinator entries of agent_path. -/
theorem no_revisit_policy :
    (∀ st : AgentState, (coordinatorNext st).1 ≠ "END" →
        (coordinatorNext st).1 ∉ nonCoord st.agent_path)
    ∧ (∀ st : AgentState, ¬ 6 ≤ st.agent_path.length → st.agent_path ≠ [] →
        (∀ s, suggestedOf st = some s → s = "" ∨ s ∈ nonCoord st.agent_path) →
        route_by_keywords (lastHumanContent st.messages) ∈ nonCoord st.agent_path →
        (coordinatorNext st).1 = "END")
    ∧ (∀ registry : String → AgentState → AgentState, RegistryOk registry →
        ∀ fuel st s, runGraph registry fuel st = Except.ok s →
          (nonCoord st.agent_path).Nodup → (nonCoord s.agent_path).Nodup) :=
  ⟨coordinatorNext_unvisited_aux, coordinator_exhausted_end_aux,
   fun registry hreg => runGraph_nodup_aux registry hreg⟩

/-- C5 witness: all three parts at concrete inputs — an unvisited routing
decision, termination on exhausted routes, and a concrete duplicate-free
run. -/
theorem no_revisit_policy_witness :
    ((coordinatorNext (initState "recommend a suitable product" "")).1
        ∉ nonCoord (initState "recommend a suitable product" "").agent_path) ∧
      (coordinatorNext hintVisitedState).1 = "END" ∧
      (∃ s, runGraph mockSpecialist 12 (initState "recommend a suitable product" "")
          = Except.ok s ∧ (nonCoord s.agent_path).Nodup) :=
  ⟨no_revisit_policy.1 _ (by decide),
   no_revisit_policy.2.1 hintVisitedState (by decide) (by decide)
     (by
       intro s hs
       have h0 : suggestedOf hintVisitedState = some "client_profiler" := by decide
       rw [h0] at hs
       injection hs with h
       subst h
       decide)
     (by decide),
   ⟨_, rfl, no_revisit_policy.2.2 mockSpecialist mockRegistry_ok 12
      (initState "recommend a suitable product" "") _ rfl (by decide)⟩⟩

/-- C6 counterexample: a state whose agent_path holds only a coordinator
entry (so no specialist has run) with a mapped function_type; the Routing
Policy ignores the table and routes by keywords, because the cold-start
branch requires a completely empty path. -/
theorem cold_start_coordinator_only_counterexample :
    nonCoord coordinatorOnlyState.agent_path = [] ∧
      FUNCTION_TYPE_ROUTING.lookup coordinatorOnlyState.function_type = some "client_profiler" ∧
      (coordinatorNext coordinatorOnlyState).1 = "policy_explainer" := by decide

/-- C6 (amended): for every state whose agent_path is entirely empty and
whose function_type is in the static table, the Routing Policy routes to the
specialist the table maps it to, not to the keyword classifier result. -/
theorem cold_start_empty_path_routing :
    ∀ (st : AgentState) (a : String), st.agent_path = [] →
      FUNCTION_TYPE_ROUTING.lookup st.function_type = some a →
      (coordinatorNext st).1 = a := by
  intro st a hp hf
  unfold coordinatorNext
  simp [hp, hf]

/-- C6 witness: needs-assessment routes to client_profiler from a fresh
state. -/
theorem cold_start_empty_path_routing_witness :
    (initState "hello" "needs-assessment").agent_path = [] ∧
      (coordinatorNext (initState "hello" "needs-assessment")).1 = "client_profiler" :=
  ⟨rfl, cold_start_empty_path_routing _ "client_profiler" rfl (by decide)⟩

/-- C7: whenever find_most_relevant_agent selects a specialist that has an
output record with a response, the Response Synthesizer returns that
response verbatim, not a concatenation. -/
theorem synthesizer_priority_verbatim :
    ∀ (st : AgentState) (outputs : List (String × AgentOutput)) (a : String)
      (o : AgentOutput) (r : String),
      find_most_relevant_agent st = some a →
      outputs.lookup a = some o → o.response = some r →
      generate_final_response st outputs = r := by
  intro st outputs a o r hf hl hr
  unfold generate_final_response
  simp [hf, hl, hr]

/-- C7 witness: path [policy_explainer, ilp_insights] with a fund
performance query returns the ilp_insights response verbatim. -/
theorem synthesizer_priority_verbatim_witness :
    generate_final_response priorityState priorityState.agent_outputs =
      "The Global Growth Fund gained 8 percent." :=
  synthesizer_priority_verbatim priorityState priorityState.agent_outputs "ilp_insights"
    { response := some "The Global Growth Fund gained 8 percent." }
    "The Global Growth Fund gained 8 percent." (by decide) (by decide) rfl

/-- C8 counterexample: with two specialist responses sharing no relevance
keyword with the query and the second containing could-not-find, the
synthesizer returns the second response verbatim (via the default
most-relevant rule), not a concatenation restricted to the first; the
could-not-find phrase matches neither source failure phrase. -/
theorem fallback_could_not_find_counterexample :
    generate_final_response couldNotFindState couldNotFindState.agent_outputs
        = "I could not find any data." ∧
      strContains (strLower "I could not find any data.") "could not find" = true ∧
      "I could not find any data." ≠ "Here is the profile summary." := by decide

/-- C8 (amended): the fallback concatenation runs only when the most
relevant specialist has no output record; it walks agent_path in order,
deduplicates by the first 30 characters, and skips responses containing the
failure phrases could-not (apostrophe) find or not-found; in the scenario
where the second response carries the real failure phrase, the result is
exactly the first response. -/
theorem fallback_filter_amended :
    ∀ r1 r2 : String,
      strContains (strLower r1) couldntFind = false →
      strContains (strLower r1) "not found" = false →
      strContains (strLower r2) couldntFind = true →
      strTake r2 30 ≠ strTake r1 30 →
      r1 ≠ "" →
      generate_final_response (fallbackScenarioState r1 r2)
        (fallbackScenarioState r1 r2).agent_outputs = r1 := by
  intro r1 r2 h1 h2 h3 h4 h5
  have hfind : find_most_relevant_agent (fallbackScenarioState r1 r2) = some "ilp_insights" := rfl
  have hlook :
      List.lookup "ilp_insights" (fallbackScenarioState r1 r2).agent_outputs = none := rfl
  have hpath : nonCoord (fallbackScenarioState r1 r2).agent_path
      = ["client_profiler", "review_upsell", "ilp_insights"] := rfl
  unfold generate_final_response
  simp only [hfind, hlook]
  unfold fallbackSynthesis
  simp only [hpath]
  simp [fallbackPass, h1, h2, h3, h4, h5, List.lookup]

/-- C8 witness: concrete responses, the second holding the real failure
phrase; only the first is kept. -/
theorem fallback_filter_amended_witness :
    generate_final_response (fallbackScenarioState "Client profile summary available." wr2)
      (fallbackScenarioState "Client profile summary available." wr2).agent_outputs
      = "Client profile summary available." :=
  fallback_filter_amended "Client profile summary available." wr2 (by decide) (by decide)
    (by decide) (by decide) (by decide)

/-- C9 counterexample: the query ilp routes to ilp_insights in the source
classifier while the table the claim states (without the ilp keyword) falls
through to the default client_profiler. -/
theorem keyword_table_ilp_counterexample :
    route_by_keywords "ilp" = "ilp_insights" ∧
      specKeywordRoute claimedKeywordTable "ilp" = "client_profiler" := by decide

/-- C9 (amended): the classifier is exactly first-match-wins over the
claimed ordered table with the single correction that the investment row
also holds the keyword ilp; the default remains client_profiler. -/
theorem keyword_table_amended :
    ∀ q : String, specKeywordRoute actualKeywordTable q = route_by_keywords q := by
  intro q
  rfl

/-- C10: every coordinator_agent invocation appends exactly one coordinator
entry to agent_path, records its decision under the coordinator output slot,
sets current_agent to coordinator, leaves messages, client_id,
function_type, shared_memory and every other output slot unchanged, and
touches final_response only when the decision is END. -/
theorem coordinator_frame_effect :
    ∀ st : AgentState,
      (coordinator_agent st).messages = st.messages ∧
      (coordinator_agent st).client_id = st.client_id ∧
      (coordinator_agent st).function_type = st.function_type ∧
      (coordinator_agent st).shared_memory = st.shared_memory ∧
      (coordinator_agent st).current_agent = "coordinator" ∧
      (coordinator_agent st).agent_path = st.agent_path ++ ["coordinator"] ∧
      (coordinator_agent st).agent_outputs.lookup "coordinator" = some (coordinatorRecord st) ∧
      (∀ k, k ≠ "coordinator" →
        (coordinator_agent st).agent_outputs.lookup k = st.agent_outputs.lookup k) ∧
      ((coordinatorNext st).1 = "END" → (coordinator_agent st).final_response.isSome = true) ∧
      ((coordinatorNext st).1 ≠ "END" →
        (coordinator_agent st).final_response = st.final_response) := by
  intro st
  refine ⟨coordinator_agent_messages st, coordinator_agent_client_id st,
    coordinator_agent_function_type st, coordinator_agent_shared_memory st,
    coordinator_agent_current st, coordinator_agent_path st, ?_, ?_, ?_, ?_⟩
  · rw [coordinator_agent_outputs, lookup_cons_self]
  · intro k hk
    rw [coordinator_agent_outputs, lookup_cons_ne _ _ hk]
  · intro h
    exact coordinator_agent_final_of_end st h
  · intro h
    exact coordinator_agent_final_of_ne st h

/-- C10 witness: the frame effect at a concrete mid-conversation state. -/
theorem coordinator_frame_effect_witness :
    (coordinator_agent frameState).client_id = frameState.client_id ∧
      (coordinator_agent frameState).agent_outputs.lookup "policy_explainer"
        = frameState.agent_outputs.lookup "policy_explainer" ∧
      (coordinator_agent frameState).final_response = frameState.final_response := by
  obtain ⟨h1, h2, h3, h4, h5, h6, h7, h8, h9, h10⟩ := coordinator_frame_effect frameState
  exact ⟨h2, h8 "policy_explainer" (by decide), h10 (by decide)⟩

end BeaconAI
